import Mathlib

/-!
Token accounting and chat relay of `services/openai`.

A shallow embedding of `code/services/openai/gpt3.go` and
`code/services/openai/stream.go`.

Conventions of the embedding.

* A Go `error` value is a `GoError`: its text and whether
  `errors.Is(err, io.EOF)` holds for it.  A nil error is `none`.
* The tokenizer library (`tiktoken-go`) and the HTTP client library
  (`go-openai`) are outside the sources; what they return is a parameter
  (`Deps`).  `tiktoken.EncodingForModel` is a function from the model name to
  either an error or an encoder, and an encoder maps a text to its token ids.
* `fmt.Println` output of the two counters is kept as the list of printed
  lines, because it is the only place where their failures are visible.
  The debug prints and logger calls of `Completions` and
  `StreamChatWithHistory` change no result and are left out.
* Go `int` is `Int`.  Every summand of a count is a per-message constant or
  the length of an in-memory slice, so 64-bit wrap-around is out of reach and
  is not represented.
* A streaming session is the finite list of results that successive
  `stream.Recv()` calls produce; a send on the response channel appends to
  the list of sent strings (the consumer is assumed to read).
-/

namespace openai

/-! ## Data model -/

/-- A Go `error`: the message and whether `errors.Is(err, io.EOF)` holds. -/
structure GoError where
  msg : String
  isEOF : Bool
deriving DecidableEq, Repr

/-- The `Messages` struct of `gpt3.go`. -/
structure Messages where
  Role : String
  Content : String
deriving DecidableEq, Repr

/-- The fields of `go_openai.ChatCompletionMessage` that the sources read. -/
structure ChatCompletionMessage where
  Role : String
  Content : String
  Name : String
deriving DecidableEq, Repr

/-- An encoder returned by `tiktoken.EncodingForModel`; `Encode text` stands
for `tkm.Encode(text, nil, nil)`. -/
structure Tiktoken where
  Encode : String → List Int

/-- What a counter hands back: the named result `numTokens` and the lines it
wrote with `fmt.Println`. -/
structure Counted where
  numTokens : Int
  stdout : List String
deriving DecidableEq, Repr

/-! ## `strings.Contains` -/

/-- Substring test on character lists. -/
def strings.containsChars (sub : List Char) : List Char → Bool
  | [] => sub.isPrefixOf []
  | c :: cs => sub.isPrefixOf (c :: cs) || strings.containsChars sub cs

/-- Go `strings.Contains(s, substr)`; on well-formed UTF-8 text the byte-wise
test of Go and this character-wise test agree. -/
def strings.Contains (s substr : String) : Bool :=
  strings.containsChars substr.toList s.toList

/-! ## Printed diagnostics -/

/-- Text of `fmt.Errorf("encoding for model: %v", err)`. -/
def encodingErrorText (err : GoError) : String :=
  "encoding for model: " ++ err.msg

/-- Warning printed on the gpt-3.5-turbo family branch. -/
def warnTurbo : String :=
  "warning: gpt-3.5-turbo may update over time. Returning num tokens assuming gpt-3.5-turbo-0613."

/-- Warning printed on the gpt-4 family branch. -/
def warnGpt4 : String :=
  "warning: gpt-4 may update over time. Returning num tokens assuming gpt-4-0613."

/-- Text of the `num_tokens_from_messages() is not implemented` error. -/
def notImplementedText (model : String) : String :=
  "num_tokens_from_messages() is not implemented for model " ++ model ++
  ". See https://github.com/openai/openai-python/blob/main/chatml.md for information on how messages are converted to tokens."

/-! ## `NumTokensFromMessagesCompletion` (gpt3.go) -/

/-- The `switch model` of `NumTokensFromMessagesCompletion`: `some
tokensPerMessage` for the two explicit cases, `none` for `default`. -/
def completionOverhead (model : String) : Option Int :=
  if model ∈ ["gpt-3.5-turbo-0613", "gpt-3.5-turbo-16k-0613", "gpt-4-0314",
      "gpt-4-32k-0314", "gpt-4-0613", "gpt-4-32k-0613", "gpt-3.5-turbo", "gpt-4"] then
    some 3
  else if model = "gpt-3.5-turbo-0301" then
    some 4
  else
    none

/-- One iteration of the `for _, message := range messages` loop of
`NumTokensFromMessagesCompletion`. -/
def completionStep (tkm : Tiktoken) (tokensPerMessage : Int)
    (numTokens : Int) (message : Messages) : Int :=
  let numTokens := numTokens + tokensPerMessage
  let numTokens := numTokens + ((tkm.Encode message.Content).length : Int)
  let numTokens := numTokens + ((tkm.Encode message.Role).length : Int)
  numTokens

/-- The function `NumTokensFromMessagesCompletion(messages, model)`. -/
def NumTokensFromMessagesCompletion (EncodingForModel : String → Except GoError Tiktoken)
    (messages : List Messages) (model : String) : Counted :=
  match EncodingForModel model with
  | .error err => ⟨0, [encodingErrorText err]⟩
  | .ok tkm =>
    match completionOverhead model with
    | some tokensPerMessage =>
      let numTokens := messages.foldl (completionStep tkm tokensPerMessage) 0
      ⟨numTokens + 3, []⟩
    | none =>
      if strings.Contains model "gpt-3.5-turbo" then
        ⟨0, [warnTurbo]⟩
      else if strings.Contains model "gpt-4" then
        ⟨0, [warnGpt4]⟩
      else
        ⟨0, [notImplementedText model]⟩

/-! ## `NumTokensFromMessages` (stream.go) -/

/-- The `switch model` of `NumTokensFromMessages`: `some (tokensPerMessage,
tokensPerName)` for the two explicit cases, `none` for `default`. -/
def streamOverhead (model : String) : Option (Int × Int) :=
  if model ∈ ["gpt-3.5-turbo-0613", "gpt-3.5-turbo-16k-0613", "gpt-4-0314",
      "gpt-4-32k-0314", "gpt-4-0613", "gpt-4-32k-0613"] then
    some (3, 1)
  else if model = "gpt-3.5-turbo-0301" then
    some (4, -1)
  else
    none

/-- One iteration of the `for _, message := range messages` loop of
`NumTokensFromMessages`. -/
def streamStep (tkm : Tiktoken) (tokensPerMessage tokensPerName : Int)
    (numTokens : Int) (message : ChatCompletionMessage) : Int :=
  let numTokens := numTokens + tokensPerMessage
  let numTokens := numTokens + ((tkm.Encode message.Content).length : Int)
  let numTokens := numTokens + ((tkm.Encode message.Role).length : Int)
  let numTokens := numTokens + ((tkm.Encode message.Name).length : Int)
  if message.Name ≠ "" then numTokens + tokensPerName else numTokens

/-- The body of `NumTokensFromMessages`, with the recursive call abstracted
as `self` (`none` from `self` means the call did not return). -/
def NumTokensFromMessagesBody
    (self : List ChatCompletionMessage → String → Option Counted)
    (EncodingForModel : String → Except GoError Tiktoken)
    (messages : List ChatCompletionMessage) (model : String) : Option Counted :=
  match EncodingForModel model with
  | .error err => some ⟨0, [encodingErrorText err]⟩
  | .ok tkm =>
    match streamOverhead model with
    | some (tokensPerMessage, tokensPerName) =>
      let numTokens := messages.foldl (streamStep tkm tokensPerMessage tokensPerName) 0
      some ⟨numTokens + 3, []⟩
    | none =>
      if strings.Contains model "gpt-3.5-turbo" then
        (self messages "gpt-3.5-turbo-0613").map
          (fun r => ⟨r.numTokens, warnTurbo :: r.stdout⟩)
      else if strings.Contains model "gpt-4" then
        (self messages "gpt-4-0613").map
          (fun r => ⟨r.numTokens, warnGpt4 :: r.stdout⟩)
      else
        some ⟨0, [notImplementedText model]⟩

/-- The function `NumTokensFromMessages` run with a budget of self-calls:
with budget `0` a self-call does not return, with budget `b + 1` it runs with
budget `b`. -/
def NumTokensFromMessagesFuel (EncodingForModel : String → Except GoError Tiktoken) :
    Nat → List ChatCompletionMessage → String → Option Counted
  | 0 => NumTokensFromMessagesBody (fun _ _ => none) EncodingForModel
  | b + 1 =>
    NumTokensFromMessagesBody (NumTokensFromMessagesFuel EncodingForModel b) EncodingForModel

/-- The function `NumTokensFromMessages(messages, model)`; one self-call is
always enough (`NumTokensFromMessagesFuel_eq`). -/
def NumTokensFromMessages (EncodingForModel : String → Except GoError Tiktoken)
    (messages : List ChatCompletionMessage) (model : String) : Counted :=
  (NumTokensFromMessagesFuel EncodingForModel 1 messages model).getD ⟨0, []⟩

/-! ## Types declared outside the two files -/

/-- Modelled from the spec: the platform tag of the `ChatGPT` receiver (its
declaration is not in the two files); the spec's backend profile is the direct
provider or the hosted variant. -/
inductive PlatForm where
  | OpenAI
  | Azure
deriving DecidableEq, Repr

/-- Modelled from the spec: the hosted-variant settings read as
`c.AzureConfig` (resource name, deployment name, API token). -/
structure AzureConfig where
  ResourceName : String
  DeploymentName : String
  ApiToken : String
deriving DecidableEq, Repr

/-- Modelled from the spec: the fields of the `ChatGPT` receiver that the two
files read (the struct is declared elsewhere in the package). -/
structure ChatGPT where
  ApiKey : List String
  ApiUrl : String
  HttpProxy : String
  Model : String
  MaxTokens : Int
  Platform : PlatForm
  AzureConfig : AzureConfig
deriving DecidableEq, Repr

/-- The type `AIMode float64`. -/
abbrev AIMode := Float

def Fresh : AIMode := 0.1
def Warmth : AIMode := 0.4
def Balance : AIMode := 0.7
def Creativity : AIMode := 1.0

/-! ## `Completions` (gpt3.go) -/

structure ChatGPTChoiceItem where
  Message : Messages
  Index : Int
  FinishReason : String
deriving DecidableEq, Repr

/-- The struct `ChatGPTResponseBody`; the untyped `usage` map is kept as
key/value text. -/
structure ChatGPTResponseBody where
  ID : String
  Object : String
  Created : Int
  Model : String
  Choices : List ChatGPTChoiceItem
  Usage : List (String × String)
deriving DecidableEq, Repr

structure ChatGPTRequestBody where
  Model : String
  Messages : List Messages
  MaxTokens : Int
  Temperature : AIMode
  TopP : Int
  FrequencyPenalty : Int
  PresencePenalty : Int

/-- A transport client, as returned by `GetProxyClient`. -/
structure HTTPClient where
  proxy : String
deriving DecidableEq, Repr

/-- The fields of `go_openai.ClientConfig` that `StreamChatWithHistory`
sets. -/
structure ClientConfig where
  authToken : String
  BaseURL : String
  azure : Bool
  AzureModelMapperFunc : Option (String → String)
  HTTPClient : Option HTTPClient

structure ChatCompletionRequest where
  Model : String
  Messages : List ChatCompletionMessage
  N : Int
  Temperature : Float
  MaxTokens : Int

structure ChatCompletionStreamChoiceDelta where
  Content : String
deriving DecidableEq, Repr

structure ChatCompletionStreamChoice where
  Delta : ChatCompletionStreamChoiceDelta
deriving DecidableEq, Repr

structure ChatCompletionStreamResponse where
  Choices : List ChatCompletionStreamChoice
deriving DecidableEq, Repr

/-- An opened stream: the results of its successive `Recv()` calls, each the
Go pair `(response, err)`. -/
abbrev ChatCompletionStream := List (ChatCompletionStreamResponse × Option GoError)

/-- Everything the two files call that lives outside them. -/
structure Deps where
  /-- The call `tiktoken.EncodingForModel(model)`. -/
  EncodingForModel : String → Except GoError Tiktoken
  /-- The call `gpt.FullUrl(suffix)`. -/
  FullUrl : ChatGPT → String → String
  /-- The call `gpt.sendRequestWithBodyType(url, method, jsonBody, requestBody,
  gptResponseBody)`: the returned error and the response body as it stands
  after the call. -/
  sendRequestWithBodyType :
    ChatGPT → String → String → ChatGPTRequestBody → Option GoError × ChatGPTResponseBody
  /-- The call `GetProxyClient(c.HttpProxy)`. -/
  GetProxyClient : String → Except GoError HTTPClient
  /-- The call `go_openai.DefaultConfig(authToken)`. -/
  DefaultConfig : String → ClientConfig
  /-- The call `go_openai.DefaultAzureConfig(apiKey, baseURL)`. -/
  DefaultAzureConfig : String → String → ClientConfig
  /-- The call `client.CreateChatCompletionStream(ctx, req)` on the client
  built from the configuration: the Go pair `(stream, err)`, a nil stream
  being `none`. -/
  CreateChatCompletionStream :
    ClientConfig → ChatCompletionRequest → Option ChatCompletionStream × Option GoError

/-- The `requestBody` literal built at the start of `Completions`. -/
def completionsRequestBody (gpt : ChatGPT) (msg : List Messages) (aiMode : AIMode) :
    ChatGPTRequestBody :=
  { Model := gpt.Model, Messages := msg, MaxTokens := gpt.MaxTokens, Temperature := aiMode,
    TopP := 1, FrequencyPenalty := 0, PresencePenalty := 0 }

/-- The method `(gpt *ChatGPT) Completions(msg, aiMode)`; the result is the Go
pair `(resp, err)`. -/
def Completions (deps : Deps) (gpt : ChatGPT) (msg : List Messages) (aiMode : AIMode) :
    Messages × Option GoError :=
  let requestBody := completionsRequestBody gpt msg aiMode
  let url := deps.FullUrl gpt "chat/completions"
  if url = "" then
    (⟨"", ""⟩, some ⟨"无法获取openai请求地址", false⟩)
  else
    let sent := deps.sendRequestWithBodyType gpt url "POST" requestBody
    let err := sent.1
    let gptResponseBody := sent.2
    let numTokens :=
      (NumTokensFromMessagesCompletion deps.EncodingForModel requestBody.Messages
        requestBody.Model).numTokens
    let numTokensStr := " (" ++ toString numTokens ++ " tokens used)"
    match err, gptResponseBody.Choices with
    | none, choice :: _ =>
      let resp := choice.Message
      ({ resp with Content := resp.Content ++ numTokensStr }, none)
    | _, _ => (⟨"", ""⟩, some ⟨"openai 请求失败", false⟩)

/-! ## `StreamChatWithHistory` (stream.go) -/

/-- A run-time panic of the Go program. -/
inductive Panic where
  | indexOutOfRange
  | nilDereference
deriving DecidableEq, Repr

/-- How a call of `StreamChatWithHistory` ends: it returns its `error`
result, it panics, or it is still inside `stream.Recv()` because the given
list of receive results is used up. -/
inductive Exit where
  | returned (err : Option GoError)
  | panicked (p : Panic)
  | receiving
deriving DecidableEq, Repr

/-- What the caller observes of a call: the strings sent on `responseStream`,
in order, and how the call ended. -/
structure Outcome where
  sent : List String
  exit : Exit
deriving DecidableEq, Repr

/-- The `for` loop of `StreamChatWithHistory` over the results of `Recv()`;
`sent` is what has been sent so far. -/
def recvLoop (numTokensStr : String) : ChatCompletionStream → List String → Outcome
  | [], sent => ⟨sent, .receiving⟩
  | (response, err) :: rest, sent =>
    match err with
    | some e =>
      if e.isEOF then ⟨sent, .returned none⟩
      else ⟨sent, .returned (some e)⟩
    | none =>
      match response.Choices with
      | [] => ⟨sent, .panicked .indexOutOfRange⟩
      | choice :: _ =>
        let answer := choice.Delta.Content ++ numTokensStr
        recvLoop numTokensStr rest (sent ++ [answer])

/-- The client configuration `StreamChatWithHistory` assembles from the
first API key and the transport client. -/
def streamClientConfig (deps : Deps) (c : ChatGPT) (key : String) (proxyClient : HTTPClient) :
    ClientConfig :=
  let config := { deps.DefaultConfig key with BaseURL := c.ApiUrl ++ "/v1" }
  let config :=
    if c.Platform ≠ PlatForm.OpenAI then
      let baseUrl := "https://" ++ c.AzureConfig.ResourceName ++ "." ++ "openai.azure.com"
      { deps.DefaultAzureConfig c.AzureConfig.ApiToken baseUrl with
        AzureModelMapperFunc := some (fun _ => c.AzureConfig.DeploymentName) }
    else config
  { config with HTTPClient := some proxyClient }

/-- The `req` literal of `StreamChatWithHistory`. -/
def streamRequest (c : ChatGPT) (msg : List ChatCompletionMessage) (maxTokens : Int)
    (aiMode : AIMode) : ChatCompletionRequest :=
  { Model := c.Model, Messages := msg, N := 1, Temperature := aiMode, MaxTokens := maxTokens }

/-- The method `(c *ChatGPT) StreamChatWithHistory(ctx, msg, maxTokens,
aiMode, responseStream)`.  The error of `CreateChatCompletionStream` is only
formatted, never looked at again, so the call goes on with whatever stream
came back; a nil stream faults at its first use. -/
def StreamChatWithHistory (deps : Deps) (c : ChatGPT) (msg : List ChatCompletionMessage)
    (maxTokens : Int) (aiMode : AIMode) : Outcome :=
  match c.ApiKey with
  | [] => ⟨[], .panicked .indexOutOfRange⟩
  | key :: _ =>
    match deps.GetProxyClient c.HttpProxy with
    | .error parseProxyError => ⟨[], .returned (some parseProxyError)⟩
    | .ok proxyClient =>
      let config := streamClientConfig deps c key proxyClient
      let req := streamRequest c msg maxTokens aiMode
      let numTokens := (NumTokensFromMessages deps.EncodingForModel msg c.Model).numTokens
      let numTokensStr := " (" ++ toString numTokens ++ " tokens)"
      match (deps.CreateChatCompletionStream config req).1 with
      | none => ⟨[], .panicked .nilDereference⟩
      | some stream => recvLoop numTokensStr stream []

/-- The method `(c *ChatGPT) StreamChat(ctx, msg, mode, responseStream)`. -/
def StreamChat (deps : Deps) (c : ChatGPT) (msg : List Messages) (mode : AIMode) : Outcome :=
  let chatMsgs : List ChatCompletionMessage :=
    msg.map (fun m => { Role := m.Role, Content := m.Content, Name := "" })
  StreamChatWithHistory deps c chatMsgs 2000 mode

/-! ## Sample collaborators used at concrete inputs -/

/-- An encoder with one token per character. -/
def charTokenizer : Tiktoken := ⟨fun s => s.toList.map (fun c => (c.toNat : Int))⟩

/-- A tokenizer library that has `charTokenizer` for every model. -/
def everyModel : String → Except GoError Tiktoken := fun _ => .ok charTokenizer

/-- A tokenizer library that has no encoding at all. -/
def noModel : String → Except GoError Tiktoken :=
  fun model => .error ⟨"no encoding for model " ++ model, false⟩

/-- A tokenizer library that knows exactly one model name. -/
def onlyModel (known : String) : String → Except GoError Tiktoken :=
  fun model => if model = known then .ok charTokenizer
    else .error ⟨"no encoding for model " ++ model, false⟩

/-- A receiver for the direct provider with one key and model `gpt-4`. -/
def sampleGpt : ChatGPT :=
  { ApiKey := ["sk-test"], ApiUrl := "https://api.openai.com", HttpProxy := "",
    Model := "gpt-4", MaxTokens := 2000, Platform := .OpenAI,
    AzureConfig := ⟨"", "", ""⟩ }

/-- Collaborators with a fixed answer of the blocking request and a fixed
result of opening the stream. -/
def sampleDeps (answer : Option GoError × ChatGPTResponseBody)
    (opened : Option ChatCompletionStream × Option GoError) : Deps :=
  { EncodingForModel := everyModel
    FullUrl := fun gpt suffix => gpt.ApiUrl ++ "/v1/" ++ suffix
    sendRequestWithBodyType := fun _ _ _ _ => answer
    GetProxyClient := fun p => .ok ⟨p⟩
    DefaultConfig := fun key => ⟨key, "https://api.openai.com/v1", false, none, none⟩
    DefaultAzureConfig := fun key base => ⟨key, base, true, none, none⟩
    CreateChatCompletionStream := fun _ _ => opened }

/-- The zero value of `ChatGPTResponseBody`. -/
def emptyBody : ChatGPTResponseBody := ⟨"", "", 0, "", [], []⟩

/-- The error `io.EOF`. -/
def ioEOF : GoError := ⟨"EOF", true⟩

/-- A stream response with one choice carrying `text`. -/
def delta (text : String) : ChatCompletionStreamResponse := ⟨[⟨⟨text⟩⟩]⟩

/-! ## Lemmas on the counting loops -/

/-- Tokens a message adds in `NumTokensFromMessagesCompletion`. -/
def completionCost (tkm : Tiktoken) (tokensPerMessage : Int) (m : Messages) : Int :=
  tokensPerMessage + ((tkm.Encode m.Content).length : Int) + ((tkm.Encode m.Role).length : Int)

/-- Tokens a message adds in `NumTokensFromMessages`. -/
def streamCost (tkm : Tiktoken) (tokensPerMessage tokensPerName : Int)
    (m : ChatCompletionMessage) : Int :=
  tokensPerMessage + ((tkm.Encode m.Content).length : Int) + ((tkm.Encode m.Role).length : Int)
    + ((tkm.Encode m.Name).length : Int) + (if m.Name ≠ "" then tokensPerName else 0)

/-- Content of `response.Choices[0].Delta`, for a response that has a choice
(the empty string stands in when it has none). -/
def choiceZeroContent (response : ChatCompletionStreamResponse) : String :=
  match response.Choices with
  | choice :: _ => choice.Delta.Content
  | [] => ""

theorem completion_foldl (tkm : Tiktoken) (t : Int) (msgs : List Messages) (acc : Int) :
    msgs.foldl (completionStep tkm t) acc = acc + (msgs.map (completionCost tkm t)).sum := by
  induction msgs generalizing acc with
  | nil => simp
  | cons m ms ih =>
    simp only [List.foldl_cons, List.map_cons, List.sum_cons, ih]
    simp only [completionStep, completionCost]
    ring

theorem stream_foldl (tkm : Tiktoken) (t n : Int) (msgs : List ChatCompletionMessage)
    (acc : Int) :
    msgs.foldl (streamStep tkm t n) acc = acc + (msgs.map (streamCost tkm t n)).sum := by
  induction msgs generalizing acc with
  | nil => simp
  | cons m ms ih =>
    simp only [List.foldl_cons, List.map_cons, List.sum_cons, ih]
    simp only [streamStep, streamCost]
    split <;> ring

theorem streamOverhead_cases (model : String) (t n : Int)
    (h : streamOverhead model = some (t, n)) : (t = 3 ∧ n = 1) ∨ (t = 4 ∧ n = -1) := by
  unfold streamOverhead at h
  split at h
  · simp only [Option.some.injEq, Prod.mk.injEq] at h
    exact Or.inl ⟨h.1.symm, h.2.symm⟩
  · split at h
    · simp only [Option.some.injEq, Prod.mk.injEq] at h
      exact Or.inr ⟨h.1.symm, h.2.symm⟩
    · exact absurd h (by simp)

theorem completionOverhead_cases (model : String) (t : Int)
    (h : completionOverhead model = some t) : t = 3 ∨ t = 4 := by
  unfold completionOverhead at h
  split at h
  · simp only [Option.some.injEq] at h
    exact Or.inl h.symm
  · split at h
    · simp only [Option.some.injEq] at h
      exact Or.inr h.symm
    · exact absurd h (by simp)

theorem streamCost_ge (tkm : Tiktoken) (model : String) (t n : Int)
    (h : streamOverhead model = some (t, n)) (m : ChatCompletionMessage) :
    3 ≤ streamCost tkm t n m := by
  have h1 : (0 : Int) ≤ ((tkm.Encode m.Content).length : Int) := Int.natCast_nonneg _
  have h2 : (0 : Int) ≤ ((tkm.Encode m.Role).length : Int) := Int.natCast_nonneg _
  have h3 : (0 : Int) ≤ ((tkm.Encode m.Name).length : Int) := Int.natCast_nonneg _
  unfold streamCost
  rcases streamOverhead_cases model t n h with ⟨rfl, rfl⟩ | ⟨rfl, rfl⟩ <;> split <;> omega

theorem completionCost_ge (tkm : Tiktoken) (model : String) (t : Int)
    (h : completionOverhead model = some t) (m : Messages) :
    3 ≤ completionCost tkm t m := by
  have h1 : (0 : Int) ≤ ((tkm.Encode m.Content).length : Int) := Int.natCast_nonneg _
  have h2 : (0 : Int) ≤ ((tkm.Encode m.Role).length : Int) := Int.natCast_nonneg _
  unfold completionCost
  rcases completionOverhead_cases model t h with rfl | rfl <;> omega

theorem sum_map_nonneg {α : Type} (f : α → Int) (hf : ∀ a, 0 ≤ f a) (l : List α) :
    0 ≤ (l.map f).sum := by
  induction l with
  | nil => simp
  | cons a l ih =>
    simp only [List.map_cons, List.sum_cons]
    have := hf a
    omega

/-- A model of the exact table is counted without any self-call, whatever
`self` is. -/
theorem body_of_overhead (self : List ChatCompletionMessage → String → Option Counted)
    (enc : String → Except GoError Tiktoken) (msgs : List ChatCompletionMessage)
    (model : String) (tkm : Tiktoken) (t n : Int)
    (henc : enc model = .ok tkm) (h : streamOverhead model = some (t, n)) :
    NumTokensFromMessagesBody self enc msgs model
      = some ⟨3 + (msgs.map (streamCost tkm t n)).sum, []⟩ := by
  simp only [NumTokensFromMessagesBody, henc, h, stream_foldl]
  simp [add_comm]

theorem body_of_error (self : List ChatCompletionMessage → String → Option Counted)
    (enc : String → Except GoError Tiktoken) (msgs : List ChatCompletionMessage)
    (model : String) (e : GoError) (henc : enc model = .error e) :
    NumTokensFromMessagesBody self enc msgs model = some ⟨0, [encodingErrorText e]⟩ := by
  simp only [NumTokensFromMessagesBody, henc]

/-- A call whose model is in the exact table returns under every budget. -/
theorem body_exact_isSome
    (enc : String → Except GoError Tiktoken) (msgs : List ChatCompletionMessage)
    (model : String) (t n : Int) (h : streamOverhead model = some (t, n)) :
    ∃ r, ∀ self2, NumTokensFromMessagesBody self2 enc msgs model = some r := by
  cases henc : enc model with
  | error e => exact ⟨_, fun self2 => body_of_error self2 enc msgs model e henc⟩
  | ok tkm => exact ⟨_, fun self2 => body_of_overhead self2 enc msgs model tkm t n henc h⟩

theorem streamOverhead_turbo0613 : streamOverhead "gpt-3.5-turbo-0613" = some (3, 1) := by decide

theorem streamOverhead_gpt4_0613 : streamOverhead "gpt-4-0613" = some (3, 1) := by decide

/-- Every budget returns the same result for a fallback target. -/
theorem fuel_exact (enc : String → Except GoError Tiktoken) (msgs : List ChatCompletionMessage)
    (model : String) (t n : Int) (h : streamOverhead model = some (t, n)) (b c : Nat) :
    NumTokensFromMessagesFuel enc b msgs model = NumTokensFromMessagesFuel enc c msgs model := by
  obtain ⟨r, hr⟩ := body_exact_isSome enc msgs model t n h
  cases b <;> cases c <;> simp only [NumTokensFromMessagesFuel, hr]

/-- The body returns as soon as the two possible self-calls return. -/
theorem body_isSome (self : List ChatCompletionMessage → String → Option Counted)
    (enc : String → Except GoError Tiktoken) (msgs : List ChatCompletionMessage)
    (model : String) (r1 r2 : Counted)
    (h1 : self msgs "gpt-3.5-turbo-0613" = some r1) (h2 : self msgs "gpt-4-0613" = some r2) :
    ∃ r, NumTokensFromMessagesBody self enc msgs model = some r := by
  unfold NumTokensFromMessagesBody
  simp only [h1, h2, Option.map_some']
  cases enc model with
  | error e => exact ⟨_, rfl⟩
  | ok tkm =>
    cases streamOverhead model with
    | some p => exact ⟨_, rfl⟩
    | none =>
      simp only
      split
      · exact ⟨_, rfl⟩
      · split <;> exact ⟨_, rfl⟩

/-- The body reads `self` only at the two fallback targets. -/
theorem body_congr (self self2 : List ChatCompletionMessage → String → Option Counted)
    (enc : String → Except GoError Tiktoken) (msgs : List ChatCompletionMessage)
    (model : String)
    (h1 : self msgs "gpt-3.5-turbo-0613" = self2 msgs "gpt-3.5-turbo-0613")
    (h2 : self msgs "gpt-4-0613" = self2 msgs "gpt-4-0613") :
    NumTokensFromMessagesBody self enc msgs model
      = NumTokensFromMessagesBody self2 enc msgs model := by
  unfold NumTokensFromMessagesBody
  rw [h1, h2]

/-- One self-call is always enough: every budget of at least one returns
what `NumTokensFromMessages` returns. -/
theorem NumTokensFromMessagesFuel_eq (enc : String → Except GoError Tiktoken)
    (msgs : List ChatCompletionMessage) (model : String) (b : Nat) (hb : 1 ≤ b) :
    NumTokensFromMessagesFuel enc b msgs model = some (NumTokensFromMessages enc msgs model) := by
  obtain ⟨b, rfl⟩ : ∃ k, b = k + 1 := ⟨b - 1, by omega⟩
  have key : NumTokensFromMessagesFuel enc (b + 1) msgs model
      = NumTokensFromMessagesFuel enc 1 msgs model := by
    simp only [NumTokensFromMessagesFuel]
    exact body_congr _ _ enc msgs model
      (fuel_exact enc msgs "gpt-3.5-turbo-0613" 3 1 streamOverhead_turbo0613 b 0)
      (fuel_exact enc msgs "gpt-4-0613" 3 1 streamOverhead_gpt4_0613 b 0)
  obtain ⟨r1, h1⟩ := body_exact_isSome enc msgs "gpt-3.5-turbo-0613" 3 1
    streamOverhead_turbo0613
  obtain ⟨r2, h2⟩ := body_exact_isSome enc msgs "gpt-4-0613" 3 1
    streamOverhead_gpt4_0613
  obtain ⟨r, hr⟩ := body_isSome (NumTokensFromMessagesFuel enc 0) enc msgs model r1 r2
    (by simp only [NumTokensFromMessagesFuel, h1]) (by simp only [NumTokensFromMessagesFuel, h2])
  have hr1 : NumTokensFromMessagesFuel enc 1 msgs model = some r := by
    simpa only [NumTokensFromMessagesFuel] using hr
  rw [key, NumTokensFromMessages, hr1]
  rfl

/-! ## Closed forms of the two counters -/

theorem fuel_zero_of_overhead (enc : String → Except GoError Tiktoken)
    (msgs : List ChatCompletionMessage) (model : String) (t n : Int)
    (h : streamOverhead model = some (t, n)) :
    NumTokensFromMessagesFuel enc 0 msgs model = some (NumTokensFromMessages enc msgs model) := by
  rw [fuel_exact enc msgs model t n h 0 1]
  exact NumTokensFromMessagesFuel_eq enc msgs model 1 (le_refl 1)

theorem stream_count_unfold (enc : String → Except GoError Tiktoken)
    (msgs : List ChatCompletionMessage) (model : String) :
    some (NumTokensFromMessages enc msgs model)
      = NumTokensFromMessagesBody (NumTokensFromMessagesFuel enc 0) enc msgs model := by
  rw [← NumTokensFromMessagesFuel_eq enc msgs model 1 (le_refl 1)]
  rfl

theorem stream_count_error (enc : String → Except GoError Tiktoken)
    (msgs : List ChatCompletionMessage) (model : String) (e : GoError)
    (henc : enc model = .error e) :
    NumTokensFromMessages enc msgs model = ⟨0, [encodingErrorText e]⟩ := by
  have h := stream_count_unfold enc msgs model
  rw [body_of_error _ enc msgs model e henc] at h
  exact Option.some.inj h

theorem stream_count_exact (enc : String → Except GoError Tiktoken)
    (msgs : List ChatCompletionMessage) (model : String) (tkm : Tiktoken) (t n : Int)
    (henc : enc model = .ok tkm) (h : streamOverhead model = some (t, n)) :
    NumTokensFromMessages enc msgs model = ⟨3 + (msgs.map (streamCost tkm t n)).sum, []⟩ := by
  have h2 := stream_count_unfold enc msgs model
  rw [body_of_overhead _ enc msgs model tkm t n henc h] at h2
  exact Option.some.inj h2

theorem stream_count_turbo (enc : String → Except GoError Tiktoken)
    (msgs : List ChatCompletionMessage) (model : String) (tkm : Tiktoken)
    (henc : enc model = .ok tkm) (h : streamOverhead model = none)
    (hc : strings.Contains model "gpt-3.5-turbo" = true) :
    NumTokensFromMessages enc msgs model
      = ⟨(NumTokensFromMessages enc msgs "gpt-3.5-turbo-0613").numTokens,
          warnTurbo :: (NumTokensFromMessages enc msgs "gpt-3.5-turbo-0613").stdout⟩ := by
  have h2 := stream_count_unfold enc msgs model
  simp only [NumTokensFromMessagesBody, henc, h, hc, if_true,
    fuel_zero_of_overhead enc msgs "gpt-3.5-turbo-0613" 3 1 streamOverhead_turbo0613,
    Option.map_some'] at h2
  exact Option.some.inj h2

theorem stream_count_gpt4 (enc : String → Except GoError Tiktoken)
    (msgs : List ChatCompletionMessage) (model : String) (tkm : Tiktoken)
    (henc : enc model = .ok tkm) (h : streamOverhead model = none)
    (hc : strings.Contains model "gpt-3.5-turbo" = false)
    (hc4 : strings.Contains model "gpt-4" = true) :
    NumTokensFromMessages enc msgs model
      = ⟨(NumTokensFromMessages enc msgs "gpt-4-0613").numTokens,
          warnGpt4 :: (NumTokensFromMessages enc msgs "gpt-4-0613").stdout⟩ := by
  have h2 := stream_count_unfold enc msgs model
  simp only [NumTokensFromMessagesBody, henc, h, hc, hc4, if_true,
    fuel_zero_of_overhead enc msgs "gpt-4-0613" 3 1 streamOverhead_gpt4_0613,
    Option.map_some'] at h2
  exact Option.some.inj (by simpa using h2)

theorem stream_count_unsupported (enc : String → Except GoError Tiktoken)
    (msgs : List ChatCompletionMessage) (model : String) (tkm : Tiktoken)
    (henc : enc model = .ok tkm) (h : streamOverhead model = none)
    (hc : strings.Contains model "gpt-3.5-turbo" = false)
    (hc4 : strings.Contains model "gpt-4" = false) :
    NumTokensFromMessages enc msgs model = ⟨0, [notImplementedText model]⟩ := by
  have h2 := stream_count_unfold enc msgs model
  simp only [NumTokensFromMessagesBody, henc, h, hc, hc4] at h2
  exact Option.some.inj (by simpa using h2)

theorem completion_count_exact (enc : String → Except GoError Tiktoken)
    (msgs : List Messages) (model : String) (tkm : Tiktoken) (t : Int)
    (henc : enc model = .ok tkm) (h : completionOverhead model = some t) :
    NumTokensFromMessagesCompletion enc msgs model
      = ⟨3 + (msgs.map (completionCost tkm t)).sum, []⟩ := by
  simp only [NumTokensFromMessagesCompletion, henc, h, completion_foldl]
  simp [add_comm]

theorem completion_count_default (enc : String → Except GoError Tiktoken)
    (msgs : List Messages) (model : String) (h : completionOverhead model = none) :
    (NumTokensFromMessagesCompletion enc msgs model).numTokens = 0 := by
  unfold NumTokensFromMessagesCompletion
  cases enc model with
  | error e => rfl
  | ok tkm =>
    simp only [h]
    split
    · rfl
    · split <;> rfl

/-- The count of a model of the exact table is a constant plus a sum of
non-negative per-message terms. -/
theorem stream_affine_exact (enc : String → Except GoError Tiktoken) (model : String)
    (t n : Int) (h : streamOverhead model = some (t, n)) :
    ∃ (c : Int) (f : ChatCompletionMessage → Int), (∀ m, 0 ≤ f m) ∧
      ∀ msgs, (NumTokensFromMessages enc msgs model).numTokens = c + (msgs.map f).sum := by
  cases henc : enc model with
  | error e =>
    refine ⟨0, fun _ => 0, fun _ => le_refl 0, fun msgs => ?_⟩
    rw [stream_count_error enc msgs model e henc]
    simp
  | ok tkm =>
    refine ⟨3, streamCost tkm t n, fun m => ?_, fun msgs => ?_⟩
    · have := streamCost_ge tkm model t n h m
      omega
    · rw [stream_count_exact enc msgs model tkm t n henc h]

theorem stream_affine (enc : String → Except GoError Tiktoken) (model : String) :
    ∃ (c : Int) (f : ChatCompletionMessage → Int), (∀ m, 0 ≤ f m) ∧
      ∀ msgs, (NumTokensFromMessages enc msgs model).numTokens = c + (msgs.map f).sum := by
  cases henc : enc model with
  | error e =>
    refine ⟨0, fun _ => 0, fun _ => le_refl 0, fun msgs => ?_⟩
    rw [stream_count_error enc msgs model e henc]
    simp
  | ok tkm =>
    cases h : streamOverhead model with
    | some p => exact stream_affine_exact enc model p.1 p.2 h
    | none =>
      cases hc : strings.Contains model "gpt-3.5-turbo" with
      | true =>
        obtain ⟨c, f, hf, hcount⟩ :=
          stream_affine_exact enc "gpt-3.5-turbo-0613" 3 1 streamOverhead_turbo0613
        refine ⟨c, f, hf, fun msgs => ?_⟩
        rw [stream_count_turbo enc msgs model tkm henc h hc]
        exact hcount msgs
      | false =>
        cases hc4 : strings.Contains model "gpt-4" with
        | true =>
          obtain ⟨c, f, hf, hcount⟩ :=
            stream_affine_exact enc "gpt-4-0613" 3 1 streamOverhead_gpt4_0613
          refine ⟨c, f, hf, fun msgs => ?_⟩
          rw [stream_count_gpt4 enc msgs model tkm henc h hc hc4]
          exact hcount msgs
        | false =>
          refine ⟨0, fun _ => 0, fun _ => le_refl 0, fun msgs => ?_⟩
          rw [stream_count_unsupported enc msgs model tkm henc h hc hc4]
          simp

theorem completion_affine (enc : String → Except GoError Tiktoken) (model : String) :
    ∃ (c : Int) (f : Messages → Int), (∀ m, 0 ≤ f m) ∧
      ∀ msgs, (NumTokensFromMessagesCompletion enc msgs model).numTokens
        = c + (msgs.map f).sum := by
  cases h : completionOverhead model with
  | none =>
    refine ⟨0, fun _ => 0, fun _ => le_refl 0, fun msgs => ?_⟩
    rw [completion_count_default enc msgs model h]
    simp
  | some t =>
    cases henc : enc model with
    | error e =>
      refine ⟨0, fun _ => 0, fun _ => le_refl 0, fun msgs => ?_⟩
      simp [NumTokensFromMessagesCompletion, henc]
    | ok tkm =>
      refine ⟨3, completionCost tkm t, fun m => ?_, fun msgs => ?_⟩
      · have := completionCost_ge tkm model t h m
        omega
      · rw [completion_count_exact enc msgs model tkm t henc h]

/-! ## Claims on the two counters -/

/-- C1 (as stated, refuted): with the model "not-a-real-model" both counters
yield the count 0 on the empty conversation, whether the tokenizer library
has an encoding for that model or not. -/
theorem unsupported_model_yields_zero :
    (NumTokensFromMessages everyModel [] "not-a-real-model").numTokens = 0 ∧
    (NumTokensFromMessagesCompletion everyModel [] "not-a-real-model").numTokens = 0 ∧
    (NumTokensFromMessages noModel [] "not-a-real-model").numTokens = 0 ∧
    (NumTokensFromMessagesCompletion noModel [] "not-a-real-model").numTokens = 0 := by
  decide

/-- C1 (amended): for every conversation and every tokenizer library, both
counters return the count 0 for "not-a-real-model" and print exactly one
line: the not-implemented message naming the model when the library has an
encoding for it, the encoding error otherwise.  Neither counter has an error
result. -/
theorem unsupported_model_prints_and_returns_zero
    (enc : String → Except GoError Tiktoken)
    (msgs : List ChatCompletionMessage) (cmsgs : List Messages) :
    NumTokensFromMessages enc msgs "not-a-real-model"
      = ⟨0, [match enc "not-a-real-model" with
             | .ok _ => notImplementedText "not-a-real-model"
             | .error e => encodingErrorText e]⟩ ∧
    NumTokensFromMessagesCompletion enc cmsgs "not-a-real-model"
      = ⟨0, [match enc "not-a-real-model" with
             | .ok _ => notImplementedText "not-a-real-model"
             | .error e => encodingErrorText e]⟩ := by
  have ho : streamOverhead "not-a-real-model" = none := by decide
  have hco : completionOverhead "not-a-real-model" = none := by decide
  have h35 : strings.Contains "not-a-real-model" "gpt-3.5-turbo" = false := by decide
  have h4 : strings.Contains "not-a-real-model" "gpt-4" = false := by decide
  cases henc : enc "not-a-real-model" with
  | error e =>
    refine ⟨stream_count_error enc msgs _ e henc, ?_⟩
    simp only [NumTokensFromMessagesCompletion, henc]
  | ok tkm =>
    refine ⟨stream_count_unsupported enc msgs _ tkm henc ho h35 h4, ?_⟩
    simp [NumTokensFromMessagesCompletion, henc, hco, h35, h4]

/-- C2 (evaluation at the failing input): "gpt-3.5-turbo-1106" is outside the
exact table of `NumTokensFromMessagesCompletion` and contains the family name;
with an encoding available the function prints the warning that it returns the
count of gpt-3.5-turbo-0613 and returns 0, while the family's overhead gives 12
for the one-message conversation, which is also what `NumTokensFromMessages`
returns. -/
theorem completion_family_fallback_returns_zero :
    completionOverhead "gpt-3.5-turbo-1106" = none ∧
    strings.Contains "gpt-3.5-turbo-1106" "gpt-3.5-turbo" = true ∧
    NumTokensFromMessagesCompletion everyModel [⟨"user", "hi"⟩] "gpt-3.5-turbo-1106"
      = ⟨0, [warnTurbo]⟩ ∧
    3 + ([(⟨"user", "hi"⟩ : Messages)].map (fun m =>
        3 + ((charTokenizer.Encode m.Content).length : Int)
          + ((charTokenizer.Encode m.Role).length : Int))).sum = 12 ∧
    (NumTokensFromMessages everyModel [⟨"user", "hi", ""⟩] "gpt-3.5-turbo-1106").numTokens
      = 12 := by
  decide

/-- C3 (as stated, refuted): "gpt-4o" contains "gpt-4" and the tokenizer
library `onlyModel "gpt-4o"` has an encoding for it, yet the count of the
empty conversation is 0, not 3, and the count of a one-message conversation is
0, below 3: the self-call asks the library for "gpt-4-0613", which it lacks. -/
theorem stream_count_fallback_without_target_encoding :
    streamOverhead "gpt-4o" = none ∧
    strings.Contains "gpt-4o" "gpt-4" = true ∧
    (∃ tkm, onlyModel "gpt-4o" "gpt-4o" = .ok tkm) ∧
    (NumTokensFromMessages (onlyModel "gpt-4o") [] "gpt-4o").numTokens = 0 ∧
    (NumTokensFromMessages (onlyModel "gpt-4o") [⟨"user", "hi", ""⟩] "gpt-4o").numTokens = 0 :=
  ⟨by decide, by decide, ⟨charTokenizer, rfl⟩, by decide, by decide⟩

/-- C3 (amended): for every model in the exact table of `NumTokensFromMessages`
with an encoding, and for every model outside it that contains "gpt-3.5-turbo"
or "gpt-4" when the tokenizer library has an encoding both for the model and
for the fallback target the self-call uses ("gpt-3.5-turbo-0613", else
"gpt-4-0613"), the count is exactly 3 for the empty conversation and at least
3 for every conversation, named messages under "gpt-3.5-turbo-0301"
included. -/
theorem stream_count_at_least_three (enc : String → Except GoError Tiktoken)
    (msgs : List ChatCompletionMessage) (model : String) (tkm : Tiktoken)
    (henc : enc model = .ok tkm)
    (hsup : (streamOverhead model).isSome = true ∨
      strings.Contains model "gpt-3.5-turbo" = true ∨ strings.Contains model "gpt-4" = true)
    (htarget : streamOverhead model = none →
      ∃ tkm2, enc (if strings.Contains model "gpt-3.5-turbo" = true
        then "gpt-3.5-turbo-0613" else "gpt-4-0613") = .ok tkm2) :
    (NumTokensFromMessages enc [] model).numTokens = 3 ∧
    3 ≤ (NumTokensFromMessages enc msgs model).numTokens := by
  have exact : ∀ (m : String) (t : Tiktoken) (a b : Int) (l : List ChatCompletionMessage),
      enc m = .ok t → streamOverhead m = some (a, b) →
      (NumTokensFromMessages enc [] m).numTokens = 3 ∧
      3 ≤ (NumTokensFromMessages enc l m).numTokens := by
    intro m t a b l hm ho
    rw [stream_count_exact enc [] m t a b hm ho, stream_count_exact enc l m t a b hm ho]
    refine ⟨by simp, ?_⟩
    have := sum_map_nonneg (streamCost t a b)
      (fun x => le_trans (by decide) (streamCost_ge t m a b ho x)) l
    show 3 ≤ 3 + (l.map (streamCost t a b)).sum
    omega
  cases ho : streamOverhead model with
  | some p => exact exact model tkm p.1 p.2 msgs henc ho
  | none =>
    obtain ⟨tkm2, h2⟩ := htarget ho
    cases hc : strings.Contains model "gpt-3.5-turbo" with
    | true =>
      rw [hc] at h2
      rw [stream_count_turbo enc [] model tkm henc ho hc,
        stream_count_turbo enc msgs model tkm henc ho hc]
      exact exact "gpt-3.5-turbo-0613" tkm2 3 1 msgs h2 streamOverhead_turbo0613
    | false =>
      rw [hc] at h2
      have hc4 : strings.Contains model "gpt-4" = true := by
        rcases hsup with h | h | h
        · rw [ho] at h; exact absurd h (by decide)
        · rw [hc] at h; exact absurd h (by decide)
        · exact h
      rw [stream_count_gpt4 enc [] model tkm henc ho hc hc4,
        stream_count_gpt4 enc msgs model tkm henc ho hc hc4]
      exact exact "gpt-4-0613" tkm2 3 1 msgs h2 streamOverhead_gpt4_0613

/-- Witness of C3 (amended): a named message under "gpt-3.5-turbo-0301", and
the fallback model "gpt-4-turbo" with a library that has every encoding. -/
theorem stream_count_at_least_three_witness :
    ((NumTokensFromMessages everyModel [] "gpt-3.5-turbo-0301").numTokens = 3 ∧
      3 ≤ (NumTokensFromMessages everyModel [⟨"", "", "n"⟩] "gpt-3.5-turbo-0301").numTokens) ∧
    ((NumTokensFromMessages everyModel [] "gpt-4-turbo").numTokens = 3 ∧
      3 ≤ (NumTokensFromMessages everyModel [⟨"user", "hi", ""⟩] "gpt-4-turbo").numTokens) :=
  ⟨stream_count_at_least_three everyModel [⟨"", "", "n"⟩] "gpt-3.5-turbo-0301" charTokenizer rfl
      (Or.inl (by decide)) (fun h => absurd h (by decide)),
    stream_count_at_least_three everyModel [⟨"user", "hi", ""⟩] "gpt-4-turbo" charTokenizer rfl
      (Or.inr (Or.inr (by decide))) (fun _ => ⟨charTokenizer, rfl⟩)⟩

/-- C4: for each of the two counters, for every tokenizer library, model,
conversation and message, appending the message never lowers the count; the
negative name overhead of "gpt-3.5-turbo-0301" is covered, since a named
message there still costs at least 3. -/
theorem count_append_mono (enc : String → Except GoError Tiktoken) (model : String)
    (msgs : List ChatCompletionMessage) (m : ChatCompletionMessage)
    (cmsgs : List Messages) (cm : Messages) :
    (NumTokensFromMessages enc msgs model).numTokens
      ≤ (NumTokensFromMessages enc (msgs ++ [m]) model).numTokens ∧
    (NumTokensFromMessagesCompletion enc cmsgs model).numTokens
      ≤ (NumTokensFromMessagesCompletion enc (cmsgs ++ [cm]) model).numTokens := by
  obtain ⟨c, f, hf, hcount⟩ := stream_affine enc model
  obtain ⟨d, g, hg, hcount2⟩ := completion_affine enc model
  rw [hcount msgs, hcount (msgs ++ [m]), hcount2 cmsgs, hcount2 (cmsgs ++ [cm])]
  simp only [List.map_append, List.sum_append, List.map_cons, List.map_nil, List.sum_cons,
    List.sum_nil]
  have h1 := hf m
  have h2 := hg cm
  constructor <;> omega

/-- C5: when the tokenizer library has an encoding for the model,
`NumTokensFromMessagesCompletion` with "gpt-4" is 3 plus, per message,
3 + encoded content + encoded role, and `NumTokensFromMessages` with
"gpt-3.5-turbo-0301" is 3 plus, per message, 4 + encoded content + encoded
role + encoded name, minus 1 when the name is not empty. -/
theorem overhead_constants (enc : String → Except GoError Tiktoken)
    (cmsgs : List Messages) (msgs : List ChatCompletionMessage) (tkm4 tkm0301 : Tiktoken)
    (h4 : enc "gpt-4" = .ok tkm4) (h0301 : enc "gpt-3.5-turbo-0301" = .ok tkm0301) :
    (NumTokensFromMessagesCompletion enc cmsgs "gpt-4").numTokens
      = 3 + (cmsgs.map (fun m => 3 + ((tkm4.Encode m.Content).length : Int)
          + ((tkm4.Encode m.Role).length : Int))).sum ∧
    (NumTokensFromMessages enc msgs "gpt-3.5-turbo-0301").numTokens
      = 3 + (msgs.map (fun m => 4 + ((tkm0301.Encode m.Content).length : Int)
          + ((tkm0301.Encode m.Role).length : Int) + ((tkm0301.Encode m.Name).length : Int)
          + (if m.Name ≠ "" then (-1 : Int) else 0))).sum := by
  constructor
  · rw [completion_count_exact enc cmsgs "gpt-4" tkm4 3 h4 (by decide)]
    rfl
  · rw [stream_count_exact enc msgs "gpt-3.5-turbo-0301" tkm0301 4 (-1) h0301 (by decide)]
    rfl

/-- Witness of C5: one message "user"/"hi" (2 + 4 characters), and the same
message named "bob" under "gpt-3.5-turbo-0301". -/
theorem overhead_constants_witness :
    (NumTokensFromMessagesCompletion everyModel [⟨"user", "hi"⟩] "gpt-4").numTokens = 12 ∧
    (NumTokensFromMessages everyModel [⟨"user", "hi", "bob"⟩] "gpt-3.5-turbo-0301").numTokens
      = 15 := by
  have h := overhead_constants everyModel [⟨"user", "hi"⟩] [⟨"user", "hi", "bob"⟩]
    charTokenizer charTokenizer rfl rfl
  refine ⟨h.1.trans (by decide), h.2.trans (by decide)⟩

/-- C9: the family fallback of `NumTokensFromMessages` is bounded to one
self-call.  With a budget of one self-call or more the function returns, and
returns the same result; both fallback targets are in the exact table and are
counted without any self-call; and for a model outside the exact table that
the tokenizer library recognises, the count is that of "gpt-3.5-turbo-0613"
when the model contains "gpt-3.5-turbo", and that of "gpt-4-0613" when it does
not but contains "gpt-4". -/
theorem fallback_one_self_call (enc : String → Except GoError Tiktoken)
    (msgs : List ChatCompletionMessage) (model : String) (b : Nat) (hb : 1 ≤ b) :
    NumTokensFromMessagesFuel enc b msgs model = some (NumTokensFromMessages enc msgs model) ∧
    (streamOverhead "gpt-3.5-turbo-0613" = some (3, 1) ∧
      streamOverhead "gpt-4-0613" = some (3, 1)) ∧
    (NumTokensFromMessagesFuel enc 0 msgs "gpt-3.5-turbo-0613"
        = some (NumTokensFromMessages enc msgs "gpt-3.5-turbo-0613") ∧
      NumTokensFromMessagesFuel enc 0 msgs "gpt-4-0613"
        = some (NumTokensFromMessages enc msgs "gpt-4-0613")) ∧
    (∀ tkm, enc model = .ok tkm → streamOverhead model = none →
      (strings.Contains model "gpt-3.5-turbo" = true →
        (NumTokensFromMessages enc msgs model).numTokens
          = (NumTokensFromMessages enc msgs "gpt-3.5-turbo-0613").numTokens) ∧
      (strings.Contains model "gpt-3.5-turbo" = false →
        strings.Contains model "gpt-4" = true →
        (NumTokensFromMessages enc msgs model).numTokens
          = (NumTokensFromMessages enc msgs "gpt-4-0613").numTokens)) := by
  refine ⟨NumTokensFromMessagesFuel_eq enc msgs model b hb,
    ⟨streamOverhead_turbo0613, streamOverhead_gpt4_0613⟩,
    ⟨fuel_zero_of_overhead enc msgs _ 3 1 streamOverhead_turbo0613,
      fuel_zero_of_overhead enc msgs _ 3 1 streamOverhead_gpt4_0613⟩, ?_⟩
  intro tkm henc ho
  constructor
  · intro hc
    rw [stream_count_turbo enc msgs model tkm henc ho hc]
  · intro hc hc4
    rw [stream_count_gpt4 enc msgs model tkm henc ho hc hc4]

/-- Witness of C9: budget 1, the dated model "gpt-3.5-turbo-1106" and a
library with every encoding; the count 12 is that of "gpt-3.5-turbo-0613". -/
theorem fallback_one_self_call_witness :
    NumTokensFromMessagesFuel everyModel 1 [⟨"user", "hi", ""⟩] "gpt-3.5-turbo-1106"
      = some ⟨12, [warnTurbo]⟩ ∧
    (NumTokensFromMessages everyModel [⟨"user", "hi", ""⟩] "gpt-3.5-turbo-1106").numTokens
      = (NumTokensFromMessages everyModel [⟨"user", "hi", ""⟩] "gpt-3.5-turbo-0613").numTokens := by
  have h := fallback_one_self_call everyModel [⟨"user", "hi", ""⟩] "gpt-3.5-turbo-1106" 1
    (le_refl 1)
  exact ⟨h.1.trans (by decide), (h.2.2.2 charTokenizer rfl (by decide)).1 (by decide)⟩

/-! ## Claims on `Completions` -/

/-- C6: with a non-empty endpoint URL, `Completions` returns an error exactly
when the blocking request returned one or the response has no choice, and then
the returned message is empty; otherwise it returns no error and the message of
choice 0 with " (N tokens used)" appended to its content, N being the result
of `NumTokensFromMessagesCompletion` on the request messages and model. -/
theorem Completions_result (deps : Deps) (gpt : ChatGPT) (msg : List Messages)
    (aiMode : AIMode) (err : Option GoError) (body : ChatGPTResponseBody)
    (hurl : deps.FullUrl gpt "chat/completions" ≠ "")
    (hsend : deps.sendRequestWithBodyType gpt (deps.FullUrl gpt "chat/completions") "POST"
      (completionsRequestBody gpt msg aiMode) = (err, body)) :
    ((Completions deps gpt msg aiMode).2 ≠ none ↔ (err ≠ none ∨ body.Choices = [])) ∧
    ((Completions deps gpt msg aiMode).2 ≠ none →
      (Completions deps gpt msg aiMode).1 = ⟨"", ""⟩) ∧
    ((Completions deps gpt msg aiMode).2 = none →
      ∃ choice rest, body.Choices = choice :: rest ∧
        Completions deps gpt msg aiMode
          = (⟨choice.Message.Role, choice.Message.Content ++ " (" ++
              toString (NumTokensFromMessagesCompletion deps.EncodingForModel msg
                gpt.Model).numTokens ++ " tokens used)"⟩, none)) := by
  have hreq : (completionsRequestBody gpt msg aiMode).Messages = msg := rfl
  have hmodel : (completionsRequestBody gpt msg aiMode).Model = gpt.Model := rfl
  simp only [Completions, hurl, if_false, hsend, hreq, hmodel]
  cases err with
  | some e => simp
  | none =>
    cases hch : body.Choices with
    | nil => simp
    | cons choice rest => simp [String.append_assoc]

/-- Witness of C6: a successful request with one choice "hello" for the
conversation "user"/"hi" under "gpt-4". -/
theorem Completions_result_witness :
    Completions
      (sampleDeps (none, { emptyBody with Choices := [⟨⟨"assistant", "hello"⟩, 0, "stop"⟩] })
        (none, none))
      sampleGpt [⟨"user", "hi"⟩] Balance
      = (⟨"assistant", "hello (12 tokens used)"⟩, none) := by
  have h := Completions_result
    (sampleDeps (none, { emptyBody with Choices := [⟨⟨"assistant", "hello"⟩, 0, "stop"⟩] })
      (none, none))
    sampleGpt [⟨"user", "hi"⟩] Balance none
    { emptyBody with Choices := [⟨⟨"assistant", "hello"⟩, 0, "stop"⟩] } (by decide) rfl
  obtain ⟨choice, rest, hch, hres⟩ := h.2.2 (by decide)
  have hchoice : choice = ⟨⟨"assistant", "hello"⟩, 0, "stop"⟩ := by
    simp only [emptyBody, List.cons.injEq] at hch
    exact hch.1.symm
  subst hchoice
  exact hres.trans (by decide)

/-! ## Claims on `StreamChatWithHistory` -/

/-- The receive loop over a run of responses that each have a choice sends
one annotated string per response and goes on with the rest. -/
theorem recvLoop_deltas (numTokensStr : String) (deltas : List ChatCompletionStreamResponse)
    (tail : ChatCompletionStream) (sent : List String)
    (hchoices : ∀ d ∈ deltas, d.Choices ≠ []) :
    recvLoop numTokensStr (deltas.map (fun d => (d, none)) ++ tail) sent
      = recvLoop numTokensStr tail
          (sent ++ deltas.map (fun d => choiceZeroContent d ++ numTokensStr)) := by
  induction deltas generalizing sent with
  | nil => simp
  | cons d ds ih =>
    have hd : d.Choices ≠ [] := hchoices d (List.mem_cons_self d ds)
    have hds : ∀ x ∈ ds, x.Choices ≠ [] := fun x hx => hchoices x (List.mem_cons_of_mem d hx)
    cases hc : d.Choices with
    | nil => exact absurd hc hd
    | cons choice rest =>
      have hzero : choiceZeroContent d = choice.Delta.Content := by
        simp only [choiceZeroContent, hc]
      have hstep : recvLoop numTokensStr ((d, none) :: (ds.map (fun d => (d, none)) ++ tail)) sent
          = recvLoop numTokensStr (ds.map (fun d => (d, none)) ++ tail)
              (sent ++ [choice.Delta.Content ++ numTokensStr]) := by
        rw [recvLoop]
        simp only [hc]
      simp only [List.map_cons, List.cons_append]
      rw [hstep, ih _ hds, hzero]
      simp [List.append_assoc]

/-- C7 (evaluation at the failing input): when `CreateChatCompletionStream`
fails with a nil stream and the error "dial tcp: connection refused",
`StreamChatWithHistory` does not return that error: the error is dropped, the
call goes on to use the stream and ends in a nil dereference. -/
theorem stream_open_error_not_returned :
    StreamChatWithHistory
      (sampleDeps (none, emptyBody) (none, some ⟨"dial tcp: connection refused", false⟩))
      sampleGpt [⟨"user", "hi", ""⟩] 2000 Balance
      = ⟨[], .panicked .nilDereference⟩ := by
  decide

/-- C8: once the stream is open, for every run of received responses that each
have a choice, followed by a receive error, `StreamChatWithHistory` sends one
string per response, in the order received, each the content of choice 0
followed by " (N tokens)" with N the result of `NumTokensFromMessages` on the
request messages and model; it returns no error when the receive error is the
end of the stream, and returns the receive error otherwise. -/
theorem stream_relays_in_order (deps : Deps) (c : ChatGPT)
    (msg : List ChatCompletionMessage) (maxTokens : Int) (aiMode : AIMode)
    (key : String) (keys : List String) (proxyClient : HTTPClient)
    (openErr : Option GoError)
    (deltas : List ChatCompletionStreamResponse) (last : ChatCompletionStreamResponse)
    (e : GoError) (rest : ChatCompletionStream)
    (hkey : c.ApiKey = key :: keys)
    (hproxy : deps.GetProxyClient c.HttpProxy = .ok proxyClient)
    (hopen : deps.CreateChatCompletionStream (streamClientConfig deps c key proxyClient)
      (streamRequest c msg maxTokens aiMode)
      = (some (deltas.map (fun d => (d, none)) ++ (last, some e) :: rest), openErr))
    (hchoices : ∀ d ∈ deltas, d.Choices ≠ []) :
    StreamChatWithHistory deps c msg maxTokens aiMode
      = ⟨deltas.map (fun d => choiceZeroContent d ++ " (" ++
            toString (NumTokensFromMessages deps.EncodingForModel msg c.Model).numTokens ++
            " tokens)"),
          .returned (if e.isEOF = true then none else some e)⟩ := by
  simp only [StreamChatWithHistory, hkey, hproxy, hopen]
  rw [recvLoop_deltas _ deltas _ [] hchoices]
  simp only [recvLoop, List.nil_append, String.append_assoc]
  split <;> rfl

/-- Witness of C8: two deltas "a" and "b" followed by the end of the stream,
and the same two deltas followed by a receive error. -/
theorem stream_relays_in_order_witness :
    StreamChatWithHistory
        (sampleDeps (none, emptyBody)
          (some [(delta "a", none), (delta "b", none), (⟨[]⟩, some ioEOF)], none))
        sampleGpt [⟨"user", "hi", ""⟩] 2000 Balance
      = ⟨["a (12 tokens)", "b (12 tokens)"], .returned none⟩ ∧
    StreamChatWithHistory
        (sampleDeps (none, emptyBody)
          (some [(delta "a", none), (delta "b", none), (⟨[]⟩, some ⟨"reset", false⟩)], none))
        sampleGpt [⟨"user", "hi", ""⟩] 2000 Balance
      = ⟨["a (12 tokens)", "b (12 tokens)"], .returned (some ⟨"reset", false⟩)⟩ := by
  constructor
  · exact (stream_relays_in_order
      (sampleDeps (none, emptyBody)
        (some [(delta "a", none), (delta "b", none), (⟨[]⟩, some ioEOF)], none))
      sampleGpt [⟨"user", "hi", ""⟩] 2000 Balance "sk-test" [] ⟨""⟩ none
      [delta "a", delta "b"] ⟨[]⟩ ioEOF [] rfl rfl rfl (by decide)).trans (by decide)
  · exact (stream_relays_in_order
      (sampleDeps (none, emptyBody)
        (some [(delta "a", none), (delta "b", none), (⟨[]⟩, some ⟨"reset", false⟩)], none))
      sampleGpt [⟨"user", "hi", ""⟩] 2000 Balance "sk-test" [] ⟨""⟩ none
      [delta "a", delta "b"] ⟨[]⟩ ⟨"reset", false⟩ [] rfl rfl rfl (by decide)).trans (by decide)

/-- C10 (evaluation at the failing input): a stream whose first response is
received without error and has an empty `Choices` list makes
`StreamChatWithHistory` fault on `response.Choices[0]` (index out of range)
before anything is sent, while `Completions` answers a response with no choice
by returning an error. -/
theorem stream_empty_choices_panics :
    StreamChatWithHistory
        (sampleDeps (none, emptyBody) (some [(⟨[]⟩, none), (delta "a", none), (⟨[]⟩, some ioEOF)], none))
        sampleGpt [⟨"user", "hi", ""⟩] 2000 Balance
      = ⟨[], .panicked .indexOutOfRange⟩ ∧
    Completions (sampleDeps (none, emptyBody) (none, none)) sampleGpt [⟨"user", "hi"⟩] Balance
      = (⟨"", ""⟩, some ⟨"openai 请求失败", false⟩) := by
  decide

end openai
